import Mathlib

/-!
Shallow embedding of the live interaction session manager of GeminiHelp
(the React component in the repository's main App file): device acquisition,
transport reconnection with exponential backoff, playback scheduling with
barge-in, and turn-based transcript aggregation with timeout-safe
finalization.

Modelling conventions:
* The component's mutable refs and React state hooks become the fields of
  one `AppState` record; every handler is a pure function
  `AppState → AppState` (with explicit clock / randomness / permission
  parameters for `Date.now()`, `ctx.currentTime`, `Math.random()` and the
  browser permission prompts).
* Calls to external collaborators (`dbService.saveMessage`,
  `dbService.saveSession`, `geminiService.connectLive`,
  `getUserMedia` / `getDisplayMedia`, `source.start` / `source.stop`) are
  recorded in append-only logs or counters, so "side effect exactly once"
  properties are about the length and contents of those logs.
* Timers (`setTimeout` handles held in refs) are modelled by their armed
  state; a timer callback is a separate event function that is guarded by
  the armed state, since `clearTimeout` prevents a cleared timer from ever
  firing.
* The single-threaded cooperative event loop of the browser is modelled by
  treating each handler invocation as one atomic step.
-/

/-- Role enum of `types.ts` (`USER = 'user'`, `DRONA = 'drona'`). -/
inductive Role where
  | user
  | drona
deriving DecidableEq, Repr

/-- Message record of `types.ts` (timestamps as abstract `Nat` clock values). -/
structure Message where
  id : String
  role : Role
  content : String
  timestamp : Nat
  isStreaming : Bool
deriving DecidableEq, Repr

/-- ChatSession record of `types.ts`. -/
structure ChatSession where
  id : String
  title : String
  messages : List Message
  createdAt : Nat
deriving DecidableEq, Repr

/-- Argument record of a `dbService.saveMessage` call. -/
structure SavedMessage where
  id : String
  role : Role
  content : String
  timestamp : Nat
deriving DecidableEq, Repr

/-- The `interactionStatus` values used by the component. -/
inductive InteractionStatus where
  | idle
  | requesting_permissions
  | connecting
  | active
  | reconnecting
  | error
deriving DecidableEq, Repr

/-- The recognized structural fields of an inbound `LiveServerMessage`
(`serverContent.modelTurn.parts[0].inlineData.data`, `interrupted`,
`inputTranscription.text`, `outputTranscription.text`, `turnComplete`).
Audio payloads are abstracted to the duration of the decoded buffer. -/
structure LiveServerMessage where
  audioDuration : Option Nat
  interrupted : Bool
  inputTranscription : Option String
  outputTranscription : Option String
  turnComplete : Bool
deriving DecidableEq, Repr

/-- Outcome of the two browser permission prompts
(`getDisplayMedia` / `getUserMedia`): `true` means granted. -/
structure MediaGrants where
  video : Bool
  audio : Bool
deriving DecidableEq, Repr

/-- The component state: each field mirrors one `useRef` or `useState` of the
session manager, plus append-only logs / counters for the calls made to
external collaborators. -/
structure AppState where
  -- playback scheduler (nextStartTimeRef, sourcesRef)
  nextStartTime : Nat
  sources : List Nat
  nextSourceId : Nat
  audioStarts : List Nat
  audioStops : List Nat
  -- transport and capture (liveSessionRef, frameIntervalRef, heartbeatRef,
  -- streamRef, visionStreamRef, audio contexts, scriptProcessorRef,
  -- mediaSourceRef); streams carry whether their track is still live
  liveSession : Bool
  frameInterval : Bool
  heartbeat : Bool
  stream : Option Bool
  visionStream : Option Bool
  inputAudioContext : Bool
  outputAudioContext : Bool
  scriptProcessor : Bool
  mediaSource : Bool
  -- transcript aggregator (currentInputTransRef, currentOutputTransRef,
  -- lastUserMsgIdRef, lastDronaMsgIdRef, transcriptTimeoutRef,
  -- firstTranscriptTimeRef)
  currentInputTrans : String
  currentOutputTrans : String
  lastUserMsgId : Option String
  lastDronaMsgId : Option String
  transcriptTimeout : Bool
  firstTranscriptTime : Option Nat
  -- session / reconnect bookkeeping (activeSessionIdRef, stopRequestedRef,
  -- reconnectAttemptedRef, reconnectAttemptsRef, reconnectTimerRef holds the
  -- scheduled delay while armed, reconnectingRef)
  activeSessionId : String
  stopRequested : Bool
  reconnectAttempted : Bool
  reconnectAttempts : Nat
  reconnectTimer : Option Nat
  reconnecting : Bool
  -- React state (isInteractionMode, isLoading, isListening, isSpeaking,
  -- isInteractionStreaming, interactionStatus, interactionError, sessions)
  isInteractionMode : Bool
  isLoading : Bool
  isListening : Bool
  isSpeaking : Bool
  isInteractionStreaming : Bool
  interactionStatus : InteractionStatus
  interactionError : String
  sessions : List ChatSession
  userPresent : Bool
  -- external collaborator logs: dbService.saveMessage calls
  -- (session id, message), dbService.saveSession calls (session id, title),
  -- geminiService.connectLive invocations, getUserMedia / getDisplayMedia
  -- invocations
  db : List (String × SavedMessage)
  dbSessions : List (String × String)
  connects : Nat
  audioRequests : Nat
  videoRequests : Nat
deriving DecidableEq, Repr

/-- stopAllAudio: `source.stop()` on every registered handle, clear the set,
and reset `nextStartTimeRef.current = 0`. -/
def stopAllAudio (st : AppState) : AppState :=
  { st with audioStops := st.audioStops ++ st.sources,
            sources := [],
            nextStartTime := 0 }

/-- hasLiveAudio: the stream exists and some audio track is still live. -/
def hasLiveAudio : Option Bool → Bool
  | some live => live
  | none => false

/-- hasLiveVideo: the stream exists and some video track is still live. -/
def hasLiveVideo : Option Bool → Bool
  | some live => live
  | none => false

/-- ensureAudioCapturePipeline: returns early unless the input audio context
and the microphone stream exist; a second early return makes it a no-op when
the processor and media source are already attached. -/
def ensureAudioCapturePipeline (st : AppState) : AppState :=
  if ¬ (st.inputAudioContext ∧ st.stream.isSome) then st
  else if st.scriptProcessor ∧ st.mediaSource then st
  else { st with scriptProcessor := true, mediaSource := true }

/-- softFailInteractionMode: keep the overlay up, settle the activity flags,
and surface the message as a user-visible error status. -/
def softFailInteractionMode (msg : String) (st : AppState) : AppState :=
  { st with isInteractionMode := true,
            isLoading := false,
            isListening := false,
            isSpeaking := false,
            interactionStatus := InteractionStatus.error,
            interactionError := msg }

/-- Model of JavaScript trim: strip whitespace from both ends. (Defined over
the character list so that concrete instances reduce inside the kernel.) -/
def jsTrim (s : String) : String :=
  ⟨((s.data.dropWhile Char.isWhitespace).reverse.dropWhile
      Char.isWhitespace).reverse⟩

/-- The warning message pushed into the session's message list when a turn is
finalized by the safety timeout. -/
def timeoutWarningMessage (now : Nat) : Message :=
  { id := toString now ++ "-timeout",
    role := Role.drona,
    content := "⚠️ Interaction timed out — please retry.",
    timestamp := now,
    isStreaming := false }

/-- The `dbService.saveMessage` calls one invocation of
`finalizeTranscriptTurn` issues from state `st` (a save happens for a role
exactly when its buffer is truthy and trims to a non-empty string, and only
when an active session id is set; the saved content is the trimmed buffer).
Save failures are caught and logged in the source, so the log records the
attempted calls. -/
def finalizeSaves (st : AppState) (now : Nat) : List (String × SavedMessage) :=
  if st.activeSessionId ≠ "" then
    (if st.currentInputTrans ≠ "" ∧ jsTrim st.currentInputTrans ≠ "" then
      [(st.activeSessionId,
        { id := st.lastUserMsgId.getD (toString now ++ "-int-u"),
          role := Role.user,
          content := jsTrim st.currentInputTrans,
          timestamp := now })]
     else [])
    ++
    (if st.currentOutputTrans ≠ "" ∧ jsTrim st.currentOutputTrans ≠ "" then
      [(st.activeSessionId,
        { id := st.lastDronaMsgId.getD (toString (now + 1) ++ "-int-d"),
          role := Role.drona,
          content := jsTrim st.currentOutputTrans,
          timestamp := now })]
     else [])
  else []

/-- finalizeTranscriptTurn: clear the safety timer, persist the non-blank
user and assistant buffers as durable messages, settle the streaming flags on
the UI messages (appending a visible timeout warning when finalization was
triggered by the timeout), and clear all buffers, ids and timer state.
`now` stands for `Date.now()`. -/
def finalizeTranscriptTurn (isTimeout : Bool) (now : Nat) (st : AppState) :
    AppState :=
  let st := { st with transcriptTimeout := false }
  let sid := st.activeSessionId
  let st :=
    if sid ≠ "" then
      let st :=
        if st.currentInputTrans ≠ "" ∧ jsTrim st.currentInputTrans ≠ "" then
          let userMsgId := st.lastUserMsgId.getD (toString now ++ "-int-u")
          { st with
              db := st.db ++ [(sid,
                { id := userMsgId, role := Role.user,
                  content := jsTrim st.currentInputTrans, timestamp := now })],
              lastUserMsgId := some userMsgId }
        else st
      let st :=
        if st.currentOutputTrans ≠ "" ∧ jsTrim st.currentOutputTrans ≠ "" then
          let dronaMsgId :=
            st.lastDronaMsgId.getD (toString (now + 1) ++ "-int-d")
          { st with
              db := st.db ++ [(sid,
                { id := dronaMsgId, role := Role.drona,
                  content := jsTrim st.currentOutputTrans, timestamp := now })],
              lastDronaMsgId := some dronaMsgId }
        else st
      { st with sessions := st.sessions.map (fun s =>
          if s.id ≠ sid then s else
          let updated := s.messages.map (fun m =>
            if some m.id = st.lastUserMsgId ∨ some m.id = st.lastDronaMsgId
            then { m with isStreaming := false } else m)
          let updated :=
            if isTimeout ∧ (st.lastUserMsgId.isSome ∨ st.lastDronaMsgId.isSome)
            then updated ++ [timeoutWarningMessage now]
            else updated
          { s with messages := updated }) }
    else st
  { st with isInteractionStreaming := false,
            isListening := false,
            currentInputTrans := "",
            currentOutputTrans := "",
            lastUserMsgId := none,
            lastDronaMsgId := none,
            firstTranscriptTime := none }

/-- Accumulator for the ref assignments performed inside the
`setSessions` updater of `syncInteractionModeTranscription` (the updater
mutates `lastUserMsgIdRef` / `lastDronaMsgIdRef` and may call
`dbService.saveSession` while mapping over the session list). -/
structure SyncCtx where
  lastUserMsgId : Option String
  lastDronaMsgId : Option String
  dbSessions : List (String × String)
deriving DecidableEq, Repr

/-- The `prev.map(...)` updater of `syncInteractionModeTranscription`,
threading the ref assignments left to right through the session list.
Non-matching sessions pass through unchanged; the matching session gets its
streaming user / assistant messages created or overwritten and its title
derived from the first user message. -/
def syncSessionList (sid input output : String) (userPresent : Bool)
    (now : Nat) : List ChatSession → SyncCtx → List ChatSession × SyncCtx
  | [], ctx => ([], ctx)
  | s :: rest, ctx =>
    if s.id ≠ sid then
      let res := syncSessionList sid input output userPresent now rest ctx
      (s :: res.1, res.2)
    else
      let newMessages := s.messages
      let step1 : List Message × SyncCtx :=
        if input ≠ "" then
          match ctx.lastUserMsgId with
          | none =>
            let uid := toString now ++ "-int-u"
            (newMessages ++ [{ id := uid, role := Role.user, content := input,
                               timestamp := now, isStreaming := true }],
             { ctx with lastUserMsgId := some uid })
          | some uid =>
            (newMessages.map (fun m =>
              if m.id = uid then
                { m with content := input, isStreaming := true } else m), ctx)
        else (newMessages, ctx)
      let step2 : List Message × SyncCtx :=
        if output ≠ "" then
          match step1.2.lastDronaMsgId with
          | none =>
            let did := toString now ++ "-int-d"
            (step1.1 ++ [{ id := did, role := Role.drona, content := output,
                           timestamp := now, isStreaming := true }],
             { step1.2 with lastDronaMsgId := some did })
          | some did =>
            (step1.1.map (fun m =>
              if m.id = did then
                { m with content := output, isStreaming := true } else m),
             step1.2)
        else step1
      -- `newMessages.find(m => m.role === Role.USER)?.content || s.title`:
      -- a missing or empty content falls back to the session title
      let found :=
        (((step2.1.find? (fun m => m.role = Role.user)).map
          (fun m => m.content)).getD "")
      let firstMsg := if found = "" then s.title else found
      let title :=
        firstMsg.take 30 ++ (if 30 < firstMsg.length then "..." else "")
      let ctx2 :=
        if userPresent ∧ s.title = "New Session" ∧ title ≠ "New Session" then
          { step2.2 with dbSessions := step2.2.dbSessions ++ [(s.id, title)] }
        else step2.2
      let res := syncSessionList sid input output userPresent now rest ctx2
      ({ s with messages := step2.1, title := title } :: res.1, res.2)

/-- syncInteractionModeTranscription: on the first non-blank transcript of a
turn, record `firstTranscriptTime`, raise the streaming flag and arm the
12-second safety timeout; then stream the current buffers into the active
session's message list. `now` stands for `Date.now()`. -/
def syncInteractionModeTranscription (now : Nat) (st : AppState) : AppState :=
  let st :=
    if st.firstTranscriptTime = none ∧
        (jsTrim st.currentInputTrans ≠ "" ∨ jsTrim st.currentOutputTrans ≠ "") then
      { st with firstTranscriptTime := some now,
                isInteractionStreaming := true,
                transcriptTimeout := true }
    else st
  let res := syncSessionList st.activeSessionId st.currentInputTrans
    st.currentOutputTrans st.userPresent now st.sessions
    { lastUserMsgId := st.lastUserMsgId,
      lastDronaMsgId := st.lastDronaMsgId,
      dbSessions := st.dbSessions }
  { st with sessions := res.1,
            lastUserMsgId := res.2.lastUserMsgId,
            lastDronaMsgId := res.2.lastDronaMsgId,
            dbSessions := res.2.dbSessions }

/-- The safety-timeout callback installed by
`syncInteractionModeTranscription`: it runs `finalizeTranscriptTurn(true)`,
but only ever fires while the timer is armed (`clearTimeout` cancels it). -/
def fireTranscriptTimeout (now : Nat) (st : AppState) : AppState :=
  if st.transcriptTimeout then finalizeTranscriptTurn true now st else st

/-- onLiveMessage: in source order, schedule inbound audio, honor an
interruption by flushing all playback, append transcript fragments (user then
assistant) with a streaming UI sync after each, and finalize the turn on
`turnComplete`. `t` stands for `ctx.currentTime` of the output audio context
and `now` for `Date.now()`. (The stray `useContextRecorder` hook call inside
the input-transcription branch is presentation-side and not modelled.) -/
def onLiveMessage (msg : LiveServerMessage) (t now : Nat) (st : AppState) :
    AppState :=
  let st :=
    match msg.audioDuration with
    | some dur =>
      if st.outputAudioContext then
        let start := max st.nextStartTime t
        { st with isSpeaking := true,
                  audioStarts := st.audioStarts ++ [start],
                  nextStartTime := start + dur,
                  sources := st.sources ++ [st.nextSourceId],
                  nextSourceId := st.nextSourceId + 1 }
      else st
    | none => st
  let st :=
    if msg.interrupted then { stopAllAudio st with isSpeaking := false }
    else st
  let st :=
    match msg.inputTranscription with
    | some text =>
      syncInteractionModeTranscription now
        { st with isListening := true,
                  currentInputTrans := st.currentInputTrans ++ text }
    | none => st
  let st :=
    match msg.outputTranscription with
    | some text =>
      syncInteractionModeTranscription now
        { st with currentOutputTrans := st.currentOutputTrans ++ text }
    | none => st
  if msg.turnComplete then finalizeTranscriptTurn false now st else st

/-- Natural completion of one playback source: drop the handle from the set
and clear the speaking flag when the set becomes empty. -/
def onAudioSourceEnded (sid : Nat) (st : AppState) : AppState :=
  let st := { st with sources := st.sources.erase sid }
  if st.sources = [] then { st with isSpeaking := false } else st

/-- scheduleReconnect: ignored after a stop request or while a reconnect is
already in flight; otherwise raises the in-flight flag, increments the
attempt counter, and arms the single reconnect timer with delay
`min(4000, 250 * 2^(attempt-1)) + jitter` where
`jitter = Math.floor(Math.random() * 250)` is passed in as a `Nat < 250`. -/
def scheduleReconnect (why : String) (evtCode evtReason : Option String)
    (jitter : Nat) (st : AppState) : AppState :=
  if st.stopRequested then st
  else if st.reconnecting then st
  else
    let st := { st with reconnecting := true,
                        interactionStatus := InteractionStatus.reconnecting }
    let attempt := st.reconnectAttempts + 1
    let st := { st with reconnectAttempts := attempt }
    let base := min 4000 (250 * 2 ^ (attempt - 1))
    let delay := base + jitter
    let codeStr := match evtCode with
      | some c => " code=" ++ c
      | none => ""
    let reasonStr := match evtReason with
      | some r => " " ++ r
      | none => ""
    let st := { st with interactionError :=
      "Live disconnected (" ++ why ++ codeStr ++ reasonStr ++
      "). Reconnecting… (attempt " ++ toString attempt ++ ")" }
    { st with reconnectTimer := some delay }

/-- The vision-stream reuse-or-reacquire block of `reconnectLiveSession`;
the `Bool` is `false` when the permission was denied and the function
soft-failed (the caller then returns early). -/
def reconnectAcquireVision (g : MediaGrants) (st : AppState) :
    AppState × Bool :=
  if ¬ hasLiveVideo st.visionStream then
    let st := { st with
      interactionStatus := InteractionStatus.requesting_permissions,
      videoRequests := st.videoRequests + 1 }
    if g.video then ({ st with visionStream := some true }, true)
    else
      (softFailInteractionMode
        "Screen share permission denied. Please allow screen sharing to continue."
        st, false)
  else (st, true)

/-- The microphone reuse-or-reacquire block of `reconnectLiveSession`. -/
def reconnectAcquireAudio (g : MediaGrants) (st : AppState) :
    AppState × Bool :=
  if ¬ hasLiveAudio st.stream then
    let st := { st with
      interactionStatus := InteractionStatus.requesting_permissions,
      audioRequests := st.audioRequests + 1 }
    if g.audio then ({ st with stream := some true }, true)
    else
      (softFailInteractionMode
        "Microphone permission denied. Please allow microphone access to continue."
        st, false)
  else (st, true)

/-- reconnectLiveSession: refused after a stop request; otherwise closes only
the live session, reuses or reacquires each stream (soft-failing on denial),
creates the audio contexts only if absent, re-attaches the capture pipeline
and the frame interval if not already running, and opens a fresh transport
(the resolved session handle is assigned back to the ref). -/
def reconnectLiveSession (g : MediaGrants) (st : AppState) : AppState :=
  if st.stopRequested then st else
  let st := { st with isInteractionMode := true,
                      interactionStatus := InteractionStatus.connecting,
                      isLoading := true,
                      liveSession := false }
  match reconnectAcquireVision g st with
  | (stv, false) => stv
  | (stv, true) =>
  match reconnectAcquireAudio g stv with
  | (sta, false) => sta
  | (sta, true) =>
  let st := sta
  let st := if ¬ st.inputAudioContext then { st with inputAudioContext := true }
            else st
  let st := if ¬ st.outputAudioContext then
              { st with outputAudioContext := true }
            else st
  let st := ensureAudioCapturePipeline st
  let st :=
    if st.visionStream.isSome then
      if st.frameInterval = false then { st with frameInterval := true }
      else st
    else st
  { st with connects := st.connects + 1, liveSession := true }

/-- The `onopen` callback of the transport opened by
`reconnectLiveSession`: resets the attempt counter, reports the session
active, and re-ensures the audio capture pipeline. -/
def onReconnectOpen (st : AppState) : AppState :=
  ensureAudioCapturePipeline
    { st with reconnectAttempts := 0,
              interactionStatus := InteractionStatus.active,
              interactionError := "",
              isLoading := false }

/-- The reconnect timer callback: clears the timer ref and the in-flight
flag, then runs `reconnectLiveSession`; it can only fire while the timer is
armed (`clearTimeout` cancels it). -/
def fireReconnectTimer (g : MediaGrants) (st : AppState) : AppState :=
  match st.reconnectTimer with
  | none => st
  | some _ =>
    reconnectLiveSession g
      { st with reconnectTimer := none, reconnecting := false }

/-- createNewSession: creates a fresh session titled "New Session", makes it
active, and persists it immediately when a user is signed in (`now` supplies
`Date.now()` used as the id). -/
def createNewSession (now : Nat) (st : AppState) : String × AppState :=
  let newId := toString now
  let newSession : ChatSession :=
    { id := newId, title := "New Session", messages := [], createdAt := now }
  let st := { st with sessions := newSession :: st.sessions,
                      activeSessionId := newId }
  let st :=
    if st.userPresent then
      { st with dbSessions := st.dbSessions ++ [(newId, "New Session")] }
    else st
  (newId, st)

/-- Conversion of a persisted message back to a UI message when the session
list is reloaded from storage. -/
def savedToMessage (e : String × SavedMessage) : Message :=
  { id := e.2.id, role := e.2.role, content := e.2.content,
    timestamp := e.2.timestamp, isStreaming := false }

/-- Model of refreshSessions: reloads the UI session list from the
persistence collaborator. Query logic is outside this subsystem's scope
(spec, purpose section); the store is modelled as the accumulated
`saveMessage` log replayed per session. -/
def refreshSessions (st : AppState) : AppState :=
  if st.userPresent then
    { st with sessions := st.sessions.map (fun s =>
        { s with messages :=
            List.map savedToMessage (List.filter (fun e => e.1 = s.id) st.db) }) }
  else st

/-- hardStopInteractionMode: sets the stop-requested flag, settles all UI
flags, flushes playback, finalizes any pending transcript turn, cancels the
reconnect and transcript timers, clears the reconnect state, stops the
capture intervals and audio nodes, releases both device streams, closes the
transport and the audio contexts, and refreshes the session list. -/
def hardStopInteractionMode (now : Nat) (st : AppState) : AppState :=
  let st := { st with stopRequested := true,
                      interactionStatus := InteractionStatus.idle,
                      isInteractionMode := false,
                      isSpeaking := false,
                      isListening := false,
                      isLoading := false }
  let st := stopAllAudio st
  let st := if st.isInteractionStreaming then finalizeTranscriptTurn false now st
            else st
  let st := { st with reconnectTimer := none }
  let st := { st with transcriptTimeout := false }
  let st := { st with reconnecting := false, reconnectAttempts := 0 }
  let st := { st with frameInterval := false, heartbeat := false }
  let st := { st with scriptProcessor := false, mediaSource := false }
  let st := { st with stream := none, visionStream := none }
  let st := { st with liveSession := false }
  let st := { st with inputAudioContext := false, outputAudioContext := false }
  refreshSessions st

/-- startInteractionMode: toggles to a hard stop when already in interaction
mode; otherwise resets the stop / reconnect bookkeeping, ensures an active
session, then acquires the screen-capture device first and the microphone
second, soft-failing with a device-specific message on either denial (an
already granted screen stream is kept when the microphone is denied), and
finally creates the audio contexts and opens the transport. -/
def startInteractionMode (g : MediaGrants) (now : Nat) (st : AppState) :
    AppState :=
  if st.isInteractionMode then hardStopInteractionMode now st else
  let st := { st with stopRequested := false,
                      reconnectAttempted := false,
                      reconnectAttempts := 0,
                      reconnecting := false,
                      reconnectTimer := none,
                      interactionError := "",
                      interactionStatus :=
                        InteractionStatus.requesting_permissions }
  let idSt :=
    if st.activeSessionId ≠ "" then (st.activeSessionId, st)
    else createNewSession now st
  let st := { idSt.2 with activeSessionId := idSt.1,
                          isInteractionMode := true,
                          isLoading := true }
  let st := { st with videoRequests := st.videoRequests + 1 }
  if ¬ g.video then
    softFailInteractionMode
      "Screen share permission denied. Please allow screen sharing to use Interaction Mode."
      st
  else
  let st := { st with visionStream := some true }
  let st := { st with audioRequests := st.audioRequests + 1 }
  if ¬ g.audio then
    softFailInteractionMode
      "Microphone permission denied. Please allow microphone access to use Interaction Mode."
      st
  else
  let st := { st with stream := some true }
  let st := { st with inputAudioContext := true, outputAudioContext := true }
  let st := { st with interactionStatus := InteractionStatus.connecting }
  { st with connects := st.connects + 1, liveSession := true }

/-- The `onopen` callback of the transport opened by
`startInteractionMode`: reports the session active, attaches the capture
pipeline, and starts the frame interval if not already running. -/
def onStartOpen (st : AppState) : AppState :=
  let st := { st with isLoading := false,
                      interactionStatus := InteractionStatus.active }
  let st := ensureAudioCapturePipeline st
  if st.visionStream.isSome then
    if st.frameInterval = false then { st with frameInterval := true } else st
  else st

/-- The `onRetry` handler passed to the voice overlay: resets the attempt
counter, clears the in-flight flag, cancels any pending reconnect timer, and
then starts its own connection attempt via `reconnectLiveSession`. -/
def onRetry (g : MediaGrants) (st : AppState) : AppState :=
  let st := { st with reconnectAttempts := 0,
                      reconnecting := false,
                      reconnectTimer := none }
  reconnectLiveSession g st

/-- A live-message carrying only a user transcript fragment. -/
def inputFragmentMsg (f : String) : LiveServerMessage :=
  { audioDuration := none, interrupted := false, inputTranscription := some f,
    outputTranscription := none, turnComplete := false }

/-- A live-message carrying only the turn-completion signal. -/
def turnCompleteMsg : LiveServerMessage :=
  { audioDuration := none, interrupted := false, inputTranscription := none,
    outputTranscription := none, turnComplete := true }

/-- A live-message carrying only the interruption (barge-in) signal. -/
def interruptionMsg : LiveServerMessage :=
  { audioDuration := none, interrupted := true, inputTranscription := none,
    outputTranscription := none, turnComplete := false }

/-- A live-message carrying only an audio payload of the given duration. -/
def audioOnlyMsg (dur : Nat) : LiveServerMessage :=
  { audioDuration := some dur, interrupted := false,
    inputTranscription := none, outputTranscription := none,
    turnComplete := false }

/-- A fully quiescent component state, used as the base of the concrete
scenarios below. -/
def baseState : AppState :=
  { nextStartTime := 0, sources := [], nextSourceId := 0,
    audioStarts := [], audioStops := [],
    liveSession := false, frameInterval := false, heartbeat := false,
    stream := none, visionStream := none,
    inputAudioContext := false, outputAudioContext := false,
    scriptProcessor := false, mediaSource := false,
    currentInputTrans := "", currentOutputTrans := "",
    lastUserMsgId := none, lastDronaMsgId := none,
    transcriptTimeout := false, firstTranscriptTime := none,
    activeSessionId := "", stopRequested := false,
    reconnectAttempted := false, reconnectAttempts := 0,
    reconnectTimer := none, reconnecting := false,
    isInteractionMode := false, isLoading := false, isListening := false,
    isSpeaking := false, isInteractionStreaming := false,
    interactionStatus := InteractionStatus.idle, interactionError := "",
    sessions := [], userPresent := false,
    db := [], dbSessions := [], connects := 0,
    audioRequests := 0, videoRequests := 0 }

/-- A state with one fresh active session, as after `createNewSession` at
time 1000 with no signed-in user. -/
def sessionReadyState : AppState :=
  { baseState with
    activeSessionId := "1000",
    sessions := [{ id := "1000", title := "New Session", messages := [],
                   createdAt := 0 }] }

/-- A state with two audio buffers scheduled (handles 0 and 1, one playing
and one pending) and a playback cursor ahead of the clock. -/
def playbackBusyState : AppState :=
  { baseState with
    sources := [0, 1], nextSourceId := 2, nextStartTime := 10,
    isSpeaking := true, outputAudioContext := true }

/-- A state in which a transcript turn is in progress: a user fragment has
arrived and the 12-second safety timer is armed. -/
def turnInProgressState : AppState :=
  onLiveMessage (inputFragmentMsg "hello world") 0 1000 sessionReadyState

/-- A state in which a reconnect is already scheduled (in-flight flag up). -/
def reconnectInFlightState : AppState :=
  { baseState with
    reconnecting := true, reconnectAttempts := 1, reconnectTimer := some 300 }

/-- An idle signed-out state with an existing session, ready for
`startInteractionMode`. -/
def startReadyState : AppState :=
  { baseState with activeSessionId := "s1" }

/-- A state in which stop has been requested. -/
def stopRequestedState : AppState :=
  { baseState with stopRequested := true }

/-- A state whose user buffer is whitespace-only and whose assistant buffer
has padded content, about to be finalized. -/
def blankUserBufferState : AppState :=
  { sessionReadyState with
    currentInputTrans := "   ", currentOutputTrans := " hi  " }

theorem finalize_transcriptTimeout (b : Bool) (n : Nat) (st : AppState) :
    (finalizeTranscriptTurn b n st).transcriptTimeout = false := by
  simp only [finalizeTranscriptTurn]
  split_ifs <;> rfl

theorem finalize_currentInputTrans (b : Bool) (n : Nat) (st : AppState) :
    (finalizeTranscriptTurn b n st).currentInputTrans = "" := rfl

theorem finalize_currentOutputTrans (b : Bool) (n : Nat) (st : AppState) :
    (finalizeTranscriptTurn b n st).currentOutputTrans = "" := rfl

theorem finalize_lastUserMsgId (b : Bool) (n : Nat) (st : AppState) :
    (finalizeTranscriptTurn b n st).lastUserMsgId = none := rfl

theorem finalize_lastDronaMsgId (b : Bool) (n : Nat) (st : AppState) :
    (finalizeTranscriptTurn b n st).lastDronaMsgId = none := rfl

theorem finalize_firstTranscriptTime (b : Bool) (n : Nat) (st : AppState) :
    (finalizeTranscriptTurn b n st).firstTranscriptTime = none := rfl

theorem finalize_activeSessionId (b : Bool) (n : Nat) (st : AppState) :
    (finalizeTranscriptTurn b n st).activeSessionId = st.activeSessionId := by
  simp only [finalizeTranscriptTurn]
  split_ifs <;> rfl

theorem finalize_stopRequested (b : Bool) (n : Nat) (st : AppState) :
    (finalizeTranscriptTurn b n st).stopRequested = st.stopRequested := by
  simp only [finalizeTranscriptTurn]
  split_ifs <;> rfl

theorem finalize_sources (b : Bool) (n : Nat) (st : AppState) :
    (finalizeTranscriptTurn b n st).sources = st.sources := by
  simp only [finalizeTranscriptTurn]
  split_ifs <;> rfl

theorem finalize_nextStartTime (b : Bool) (n : Nat) (st : AppState) :
    (finalizeTranscriptTurn b n st).nextStartTime = st.nextStartTime := by
  simp only [finalizeTranscriptTurn]
  split_ifs <;> rfl

theorem finalize_isSpeaking (b : Bool) (n : Nat) (st : AppState) :
    (finalizeTranscriptTurn b n st).isSpeaking = st.isSpeaking := by
  simp only [finalizeTranscriptTurn]
  split_ifs <;> rfl

theorem finalize_audioStops (b : Bool) (n : Nat) (st : AppState) :
    (finalizeTranscriptTurn b n st).audioStops = st.audioStops := by
  simp only [finalizeTranscriptTurn]
  split_ifs <;> rfl

theorem finalize_audioStarts (b : Bool) (n : Nat) (st : AppState) :
    (finalizeTranscriptTurn b n st).audioStarts = st.audioStarts := by
  simp only [finalizeTranscriptTurn]
  split_ifs <;> rfl

theorem finalize_outputAudioContext (b : Bool) (n : Nat) (st : AppState) :
    (finalizeTranscriptTurn b n st).outputAudioContext
      = st.outputAudioContext := by
  simp only [finalizeTranscriptTurn]
  split_ifs <;> rfl

theorem finalize_db_eq (b : Bool) (n : Nat) (st : AppState) :
    (finalizeTranscriptTurn b n st).db = st.db ++ finalizeSaves st n := by
  simp only [finalizeTranscriptTurn, finalizeSaves]
  split_ifs <;> simp

theorem sync_currentInputTrans (n : Nat) (st : AppState) :
    (syncInteractionModeTranscription n st).currentInputTrans
      = st.currentInputTrans := by
  simp only [syncInteractionModeTranscription]
  split_ifs <;> rfl

theorem sync_currentOutputTrans (n : Nat) (st : AppState) :
    (syncInteractionModeTranscription n st).currentOutputTrans
      = st.currentOutputTrans := by
  simp only [syncInteractionModeTranscription]
  split_ifs <;> rfl

theorem sync_sources (n : Nat) (st : AppState) :
    (syncInteractionModeTranscription n st).sources = st.sources := by
  simp only [syncInteractionModeTranscription]
  split_ifs <;> rfl

theorem sync_nextStartTime (n : Nat) (st : AppState) :
    (syncInteractionModeTranscription n st).nextStartTime
      = st.nextStartTime := by
  simp only [syncInteractionModeTranscription]
  split_ifs <;> rfl

theorem sync_isSpeaking (n : Nat) (st : AppState) :
    (syncInteractionModeTranscription n st).isSpeaking = st.isSpeaking := by
  simp only [syncInteractionModeTranscription]
  split_ifs <;> rfl

theorem sync_audioStops (n : Nat) (st : AppState) :
    (syncInteractionModeTranscription n st).audioStops = st.audioStops := by
  simp only [syncInteractionModeTranscription]
  split_ifs <;> rfl

theorem sync_audioStarts (n : Nat) (st : AppState) :
    (syncInteractionModeTranscription n st).audioStarts = st.audioStarts := by
  simp only [syncInteractionModeTranscription]
  split_ifs <;> rfl

theorem sync_outputAudioContext (n : Nat) (st : AppState) :
    (syncInteractionModeTranscription n st).outputAudioContext
      = st.outputAudioContext := by
  simp only [syncInteractionModeTranscription]
  split_ifs <;> rfl

theorem ensure_reconnectFields (st : AppState) :
    (ensureAudioCapturePipeline st).reconnectAttempts = st.reconnectAttempts
    ∧ (ensureAudioCapturePipeline st).reconnectTimer = st.reconnectTimer
    ∧ (ensureAudioCapturePipeline st).reconnecting = st.reconnecting := by
  simp only [ensureAudioCapturePipeline]
  split_ifs <;> exact ⟨rfl, rfl, rfl⟩

theorem scheduleReconnect_noop_of_stop (why : String)
    (c r : Option String) (j : Nat) (st : AppState)
    (h : st.stopRequested = true) :
    scheduleReconnect why c r j st = st := by
  simp [scheduleReconnect, h]

theorem reconnectLiveSession_noop_of_stop (g : MediaGrants) (st : AppState)
    (h : st.stopRequested = true) :
    reconnectLiveSession g st = st := by
  simp [reconnectLiveSession, h]

theorem fireReconnectTimer_noop_of_clear (g : MediaGrants) (st : AppState)
    (h : st.reconnectTimer = none) :
    fireReconnectTimer g st = st := by
  simp [fireReconnectTimer, h]

theorem refreshSessions_stopRequested (st : AppState) :
    (refreshSessions st).stopRequested = st.stopRequested := by
  simp only [refreshSessions]
  split_ifs <;> rfl

theorem refreshSessions_reconnectTimer (st : AppState) :
    (refreshSessions st).reconnectTimer = st.reconnectTimer := by
  simp only [refreshSessions]
  split_ifs <;> rfl

theorem hardStop_stopRequested (n : Nat) (st : AppState) :
    (hardStopInteractionMode n st).stopRequested = true := by
  simp only [hardStopInteractionMode, refreshSessions_stopRequested]
  split_ifs <;> simp [finalize_stopRequested, stopAllAudio]

theorem hardStop_reconnectTimer (n : Nat) (st : AppState) :
    (hardStopInteractionMode n st).reconnectTimer = none := by
  simp only [hardStopInteractionMode, refreshSessions_reconnectTimer]

theorem onLiveMessage_inputFragment (f : String) (t n : Nat) (st : AppState) :
    (onLiveMessage (inputFragmentMsg f) t n st).currentInputTrans
      = st.currentInputTrans ++ f := by
  simp [onLiveMessage, inputFragmentMsg, sync_currentInputTrans]

theorem onLiveMessage_interrupted_playback (msg : LiveServerMessage)
    (t n : Nat) (st : AppState) (h : msg.interrupted = true) :
    (onLiveMessage msg t n st).sources = []
    ∧ (onLiveMessage msg t n st).isSpeaking = false
    ∧ (onLiveMessage msg t n st).nextStartTime = 0 := by
  rcases msg with ⟨ad, ir, it, ot, tc⟩
  subst h
  cases it <;> cases ot <;> cases tc <;>
    simp [onLiveMessage, stopAllAudio, sync_sources, sync_isSpeaking,
      sync_nextStartTime, finalize_sources, finalize_isSpeaking,
      finalize_nextStartTime]

theorem onLiveMessage_interrupted_stops (msg : LiveServerMessage)
    (t n : Nat) (st : AppState) (h : msg.interrupted = true)
    (h2 : msg.audioDuration = none) :
    (onLiveMessage msg t n st).audioStops = st.audioStops ++ st.sources := by
  rcases msg with ⟨ad, ir, it, ot, tc⟩
  subst h
  cases h2
  cases it <;> cases ot <;> cases tc <;>
    simp [onLiveMessage, stopAllAudio, sync_audioStops, finalize_audioStops]

theorem onLiveMessage_audio_starts (d t n : Nat) (st : AppState)
    (h : st.outputAudioContext = true) :
    (onLiveMessage (audioOnlyMsg d) t n st).audioStarts
      = st.audioStarts ++ [max st.nextStartTime t] := by
  simp [onLiveMessage, audioOnlyMsg, h]

theorem onLiveMessage_interrupted_outputCtx (msg : LiveServerMessage)
    (t n : Nat) (st : AppState) :
    (onLiveMessage msg t n st).outputAudioContext = st.outputAudioContext := by
  rcases msg with ⟨ad, ir, it, ot, tc⟩
  cases ad <;> cases ir <;> cases it <;> cases ot <;> cases tc <;>
    simp [onLiveMessage, stopAllAudio, sync_outputAudioContext,
      finalize_outputAudioContext] <;>
    split_ifs <;>
    simp [sync_outputAudioContext, finalize_outputAudioContext]

/-- C1: for every transcript turn, finalization executes its persistence side
effect exactly once even when both the turn-completion signal and the
12-second safety timeout fire in the same tick: the first trigger persists
the accumulated text (appending `finalizeSaves` to the save-call log) and
clears all buffers, ids and timer state, and the losing trigger is a no-op —
a timeout firing after a completion-triggered finalize leaves the state
untouched (the timer was cleared), and a completion arriving after a
timeout-triggered finalize adds nothing to the persistence log. -/
theorem finalizeTurn_persistence_exactly_once (st : AppState) (n1 n2 : Nat)
    (h : st.transcriptTimeout = true) :
    (finalizeTranscriptTurn false n1 st).db = st.db ++ finalizeSaves st n1
    ∧ (finalizeTranscriptTurn false n1 st).currentInputTrans = ""
    ∧ (finalizeTranscriptTurn false n1 st).currentOutputTrans = ""
    ∧ (finalizeTranscriptTurn false n1 st).lastUserMsgId = none
    ∧ (finalizeTranscriptTurn false n1 st).lastDronaMsgId = none
    ∧ (finalizeTranscriptTurn false n1 st).transcriptTimeout = false
    ∧ fireTranscriptTimeout n2 (finalizeTranscriptTurn false n1 st)
        = finalizeTranscriptTurn false n1 st
    ∧ fireTranscriptTimeout n1 st = finalizeTranscriptTurn true n1 st
    ∧ (finalizeTranscriptTurn false n2 (fireTranscriptTimeout n1 st)).db
        = (fireTranscriptTimeout n1 st).db := by
  refine ⟨finalize_db_eq _ _ _, rfl, rfl, rfl, rfl,
    finalize_transcriptTimeout _ _ _, ?_, ?_, ?_⟩
  · simp [fireTranscriptTimeout, finalize_transcriptTimeout]
  · simp [fireTranscriptTimeout, h]
  · simp [fireTranscriptTimeout, h, finalize_db_eq, finalizeSaves,
      finalize_currentInputTrans, finalize_currentOutputTrans]

/-- Witness for C1 at a concrete in-progress turn (a user fragment has
arrived and armed the safety timer). -/
theorem finalizeTurn_persistence_exactly_once_witness :
    turnInProgressState.transcriptTimeout = true
    ∧ ((finalizeTranscriptTurn false 1 turnInProgressState).db
        = turnInProgressState.db ++ finalizeSaves turnInProgressState 1
      ∧ (finalizeTranscriptTurn false 1 turnInProgressState).currentInputTrans
          = ""
      ∧ (finalizeTranscriptTurn false 1 turnInProgressState).currentOutputTrans
          = ""
      ∧ (finalizeTranscriptTurn false 1 turnInProgressState).lastUserMsgId
          = none
      ∧ (finalizeTranscriptTurn false 1 turnInProgressState).lastDronaMsgId
          = none
      ∧ (finalizeTranscriptTurn false 1 turnInProgressState).transcriptTimeout
          = false
      ∧ fireTranscriptTimeout 2 (finalizeTranscriptTurn false 1 turnInProgressState)
          = finalizeTranscriptTurn false 1 turnInProgressState
      ∧ fireTranscriptTimeout 1 turnInProgressState
          = finalizeTranscriptTurn true 1 turnInProgressState
      ∧ (finalizeTranscriptTurn false 2 (fireTranscriptTimeout 1 turnInProgressState)).db
          = (fireTranscriptTimeout 1 turnInProgressState).db) :=
  ⟨by decide,
   finalizeTurn_persistence_exactly_once turnInProgressState 1 2 (by decide)⟩

/-- C2: for reconnect attempt n (the incremented counter), the armed timer
delay equals `min(4000, 250 * 2^(n-1)) + jitter` with the jitter drawn
uniformly from `[0, 250)`; for attempt 1 the delay lies in `[250, 500)`; the
attempt counter increments on each trigger and resets to 0 in the `onopen`
of the next successful reconnect. -/
theorem scheduleReconnect_backoff (st : AppState) (why : String)
    (c r : Option String) (j : Nat) (hj : j < 250)
    (hstop : st.stopRequested = false) (hflight : st.reconnecting = false) :
    (scheduleReconnect why c r j st).reconnectTimer
        = some (min 4000 (250 * 2 ^ st.reconnectAttempts) + j)
    ∧ (scheduleReconnect why c r j st).reconnectAttempts
        = st.reconnectAttempts + 1
    ∧ (st.reconnectAttempts = 0 →
        250 ≤ min 4000 (250 * 2 ^ st.reconnectAttempts) + j
        ∧ min 4000 (250 * 2 ^ st.reconnectAttempts) + j < 500)
    ∧ (∀ st2 : AppState, (onReconnectOpen st2).reconnectAttempts = 0) := by
  refine ⟨?_, ?_, ?_, ?_⟩
  · simp [scheduleReconnect, hstop, hflight]
  · simp [scheduleReconnect, hstop, hflight]
  · intro h0
    rw [h0]
    simp
    omega
  · intro st2
    have h := (ensure_reconnectFields
      { st2 with reconnectAttempts := 0,
                 interactionStatus := InteractionStatus.active,
                 interactionError := "",
                 isLoading := false }).1
    simpa [onReconnectOpen] using h

/-- Witness for C2: first reconnect trigger from a quiescent state with
jitter 100 arms the timer with delay 350 ∈ [250, 500). -/
theorem scheduleReconnect_backoff_witness :
    ((100 : Nat) < 250 ∧ baseState.stopRequested = false
      ∧ baseState.reconnecting = false)
    ∧ ((scheduleReconnect "ws-close" none none 100 baseState).reconnectTimer
        = some (min 4000 (250 * 2 ^ baseState.reconnectAttempts) + 100)
      ∧ (scheduleReconnect "ws-close" none none 100 baseState).reconnectAttempts
          = baseState.reconnectAttempts + 1
      ∧ (baseState.reconnectAttempts = 0 →
          250 ≤ min 4000 (250 * 2 ^ baseState.reconnectAttempts) + 100
          ∧ min 4000 (250 * 2 ^ baseState.reconnectAttempts) + 100 < 500)
      ∧ (∀ st2 : AppState, (onReconnectOpen st2).reconnectAttempts = 0)) :=
  ⟨⟨by decide, by decide, by decide⟩,
   scheduleReconnect_backoff baseState "ws-close" none none 100
     (by decide) (by decide) (by decide)⟩

/-- C3: while the in-flight flag is set, a new reconnect trigger is ignored
entirely — `scheduleReconnect` returns the state unchanged, so no second
attempt is scheduled and the single timer slot is untouched. -/
theorem scheduleReconnect_single_in_flight (st : AppState) (why : String)
    (c r : Option String) (j : Nat) (h : st.reconnecting = true) :
    scheduleReconnect why c r j st = st := by
  simp [scheduleReconnect, h]

/-- Witness for C3 at a state with a reconnect already scheduled. -/
theorem scheduleReconnect_single_in_flight_witness :
    reconnectInFlightState.reconnecting = true
    ∧ scheduleReconnect "ws-error" none none 7 reconnectInFlightState
        = reconnectInFlightState :=
  ⟨by decide,
   scheduleReconnect_single_in_flight reconnectInFlightState "ws-error"
     none none 7 (by decide)⟩

/-- C6: transcript fragments are appended to the user buffer strictly in
arrival order with no reordering or loss (the buffer after any fragment
sequence is the left fold of append over the fragments); in particular the
fragments "Hel", "lo ", "there" followed by a completion signal persist
exactly one user message with content "Hello there". -/
theorem transcript_fragments_in_arrival_order (st : AppState) (t n : Nat)
    (fs : List String) :
    (fs.foldl (fun s f => onLiveMessage (inputFragmentMsg f) t n s)
        st).currentInputTrans
      = fs.foldl (fun acc f => acc ++ f) st.currentInputTrans
    ∧ (onLiveMessage turnCompleteMsg 0 50
        (["Hel", "lo ", "there"].foldl
          (fun s f => onLiveMessage (inputFragmentMsg f) 0 10 s)
          sessionReadyState)).db
      = [("1000", { id := "10-int-u", role := Role.user,
                    content := "Hello there", timestamp := 50 })] := by
  constructor
  · induction fs generalizing st with
    | nil => rfl
    | cons f fs ih =>
      simp only [List.foldl_cons, ih, onLiveMessage_inputFragment]
  · decide

/-- C9: a finalize appends exactly `finalizeSaves` to the save-call log; a
role whose accumulated buffer is empty or whitespace-only contributes no
persistence call, and every persisted message carries the trimmed, non-empty
accumulated text of its role. -/
theorem finalize_skips_blank_buffers (st : AppState) (b : Bool) (n : Nat) :
    (finalizeTranscriptTurn b n st).db = st.db ++ finalizeSaves st n
    ∧ (jsTrim st.currentInputTrans = "" →
        ∀ e ∈ finalizeSaves st n, e.2.role ≠ Role.user)
    ∧ (jsTrim st.currentOutputTrans = "" →
        ∀ e ∈ finalizeSaves st n, e.2.role ≠ Role.drona)
    ∧ (∀ e ∈ finalizeSaves st n,
        (e.2.role = Role.user →
          e.2.content = jsTrim st.currentInputTrans ∧ e.2.content ≠ "")
        ∧ (e.2.role = Role.drona →
          e.2.content = jsTrim st.currentOutputTrans ∧ e.2.content ≠ "")) := by
  refine ⟨finalize_db_eq _ _ _, ?_, ?_, ?_⟩
  · intro h e he
    unfold finalizeSaves at he
    split_ifs at he <;> simp_all
  · intro h e he
    unfold finalizeSaves at he
    split_ifs at he <;> simp_all
  · intro e he
    unfold finalizeSaves at he
    split_ifs at he <;> simp_all
    rcases he with he | he <;> simp_all

/-- Witness for C9 at a concrete state with a whitespace-only user buffer
and a padded assistant buffer: only the assistant message is persisted, with
trimmed content. -/
theorem finalize_skips_blank_buffers_witness :
    ((finalizeTranscriptTurn false 5 blankUserBufferState).db
        = blankUserBufferState.db ++ finalizeSaves blankUserBufferState 5
      ∧ (jsTrim blankUserBufferState.currentInputTrans = "" →
          ∀ e ∈ finalizeSaves blankUserBufferState 5, e.2.role ≠ Role.user)
      ∧ (jsTrim blankUserBufferState.currentOutputTrans = "" →
          ∀ e ∈ finalizeSaves blankUserBufferState 5, e.2.role ≠ Role.drona)
      ∧ (∀ e ∈ finalizeSaves blankUserBufferState 5,
          (e.2.role = Role.user →
            e.2.content = jsTrim blankUserBufferState.currentInputTrans
            ∧ e.2.content ≠ "")
          ∧ (e.2.role = Role.drona →
            e.2.content = jsTrim blankUserBufferState.currentOutputTrans
            ∧ e.2.content ≠ "")))
    ∧ finalizeSaves blankUserBufferState 5
        = [("1000", { id := "6-int-d", role := Role.drona,
                      content := "hi", timestamp := 5 })] :=
  ⟨finalize_skips_blank_buffers blankUserBufferState false 5, by decide⟩

theorem finalize_sessions_timeout_warning (n : Nat) (st : AppState)
    (h2 : st.lastUserMsgId.isSome ∨ st.lastDronaMsgId.isSome)
    (h3 : st.activeSessionId ≠ "") :
    ∀ s ∈ (finalizeTranscriptTurn true n st).sessions,
      s.id = st.activeSessionId →
      s.messages.getLast? = some (timeoutWarningMessage n) := by
  intro s hs hid
  unfold finalizeTranscriptTurn at hs
  dsimp only at hs
  split_ifs at hs with hA hB hC hD hE hF
  all_goals
    rcases List.mem_map.1 hs with ⟨a, ha, rfl⟩
  all_goals
    by_cases hcase : a.id = st.activeSessionId
  all_goals simp_all [List.getLast?_concat]

/-- C4 counterexample: a turn with accumulated user text "hello world" is
finalized by the 12-second safety timeout; the persisted output (the
`saveMessage` log) contains exactly the accumulated text and does not
include the visible timeout warning — the claim that the persisted output
includes an appended timeout warning is false at this input. -/
theorem timeout_warning_not_persisted :
    ((fireTranscriptTimeout 2000 turnInProgressState).db.map
        (fun e => e.2.content)) = ["hello world"]
    ∧ ¬ ((timeoutWarningMessage 2000).content ∈
          ((fireTranscriptTimeout 2000 turnInProgressState).db.map
            (fun e => e.2.content))) := by
  decide

/-- C4 (amended): when a turn is finalized by the safety timeout, the
persisted output contains the trimmed accumulated transcript text (and
nothing else), while the visible timeout warning is appended to the active
session's on-screen message list rather than persisted. -/
theorem timeout_finalize_warning_in_ui (st : AppState) (n : Nat)
    (h1 : st.transcriptTimeout = true)
    (h2 : st.lastUserMsgId.isSome ∨ st.lastDronaMsgId.isSome)
    (h3 : st.activeSessionId ≠ "") :
    (fireTranscriptTimeout n st).db = st.db ++ finalizeSaves st n
    ∧ (∀ e ∈ finalizeSaves st n,
        e.2.content = jsTrim st.currentInputTrans
        ∨ e.2.content = jsTrim st.currentOutputTrans)
    ∧ ∀ s ∈ (fireTranscriptTimeout n st).sessions,
        s.id = st.activeSessionId →
        s.messages.getLast? = some (timeoutWarningMessage n) := by
  have hfire : fireTranscriptTimeout n st = finalizeTranscriptTurn true n st := by
    simp [fireTranscriptTimeout, h1]
  refine ⟨by rw [hfire]; exact finalize_db_eq true n st, ?_, ?_⟩
  · intro e he
    unfold finalizeSaves at he
    split_ifs at he <;> simp_all
    rcases he with he | he <;> simp_all
  · rw [hfire]
    exact finalize_sessions_timeout_warning n st h2 h3

/-- Witness for the amended C4 at a concrete in-progress turn. -/
theorem timeout_finalize_warning_in_ui_witness :
    (turnInProgressState.transcriptTimeout = true
      ∧ (turnInProgressState.lastUserMsgId.isSome
          ∨ turnInProgressState.lastDronaMsgId.isSome)
      ∧ turnInProgressState.activeSessionId ≠ "")
    ∧ ((fireTranscriptTimeout 2000 turnInProgressState).db
        = turnInProgressState.db ++ finalizeSaves turnInProgressState 2000
      ∧ (∀ e ∈ finalizeSaves turnInProgressState 2000,
          e.2.content = jsTrim turnInProgressState.currentInputTrans
          ∨ e.2.content = jsTrim turnInProgressState.currentOutputTrans)
      ∧ ∀ s ∈ (fireTranscriptTimeout 2000 turnInProgressState).sessions,
          s.id = turnInProgressState.activeSessionId →
          s.messages.getLast? = some (timeoutWarningMessage 2000)) :=
  ⟨⟨by decide, by decide, by decide⟩,
   timeout_finalize_warning_in_ui turnInProgressState 2000
     (by decide) (by decide) (by decide)⟩

/-- C5 counterexample: an interruption arrives while two buffers are
scheduled and the audio clock reads 7; the code stops both handles and
clears the set, but resets `nextStartTime` to 0, not to the current clock
time 7 — the claim that `nextStartTime` is reset to the current clock time
is false at this input. -/
theorem interruption_resets_cursor_to_zero :
    (onLiveMessage interruptionMsg 7 0 playbackBusyState).sources = []
    ∧ (onLiveMessage interruptionMsg 7 0 playbackBusyState).isSpeaking = false
    ∧ (onLiveMessage interruptionMsg 7 0 playbackBusyState).audioStops = [0, 1]
    ∧ (onLiveMessage interruptionMsg 7 0 playbackBusyState).nextStartTime = 0
    ∧ ¬ (onLiveMessage interruptionMsg 7 0 playbackBusyState).nextStartTime
          = 7 := by
  decide

/-- C5 (amended): on an interruption signal the scheduler stops every handle
in the active set, clears the set (so the speaking flag clears), and resets
`nextStartTime` to 0; because each subsequent buffer is scheduled at
`max(nextStartTime, currentClockTime)`, the next buffer after the
interruption starts exactly at the current clock time, which is what the
reset achieves observably. -/
theorem interruption_flushes_playback (st : AppState)
    (msg : LiveServerMessage) (t n d t2 n2 : Nat)
    (h : msg.interrupted = true) :
    (onLiveMessage msg t n st).sources = []
    ∧ (onLiveMessage msg t n st).isSpeaking = false
    ∧ (onLiveMessage msg t n st).nextStartTime = 0
    ∧ (msg.audioDuration = none →
        (onLiveMessage msg t n st).audioStops = st.audioStops ++ st.sources)
    ∧ (st.outputAudioContext = true →
        (onLiveMessage (audioOnlyMsg d) t2 n2
            (onLiveMessage msg t n st)).audioStarts
          = (onLiveMessage msg t n st).audioStarts ++ [t2]) := by
  obtain ⟨h1, h2, h3⟩ := onLiveMessage_interrupted_playback msg t n st h
  refine ⟨h1, h2, h3, fun hnone => onLiveMessage_interrupted_stops msg t n st h hnone, ?_⟩
  intro hctx
  have hctx' : (onLiveMessage msg t n st).outputAudioContext = true := by
    rw [onLiveMessage_interrupted_outputCtx]
    exact hctx
  rw [onLiveMessage_audio_starts d t2 n2 (onLiveMessage msg t n st) hctx', h3]
  simp

/-- Witness for the amended C5 at the concrete two-buffer state. -/
theorem interruption_flushes_playback_witness :
    interruptionMsg.interrupted = true
    ∧ ((onLiveMessage interruptionMsg 7 0 playbackBusyState).sources = []
      ∧ (onLiveMessage interruptionMsg 7 0 playbackBusyState).isSpeaking = false
      ∧ (onLiveMessage interruptionMsg 7 0 playbackBusyState).nextStartTime = 0
      ∧ (interruptionMsg.audioDuration = none →
          (onLiveMessage interruptionMsg 7 0 playbackBusyState).audioStops
            = playbackBusyState.audioStops ++ playbackBusyState.sources)
      ∧ (playbackBusyState.outputAudioContext = true →
          (onLiveMessage (audioOnlyMsg 3) 9 0
              (onLiveMessage interruptionMsg 7 0 playbackBusyState)).audioStarts
            = (onLiveMessage interruptionMsg 7 0 playbackBusyState).audioStarts
              ++ [9])) :=
  ⟨by decide,
   interruption_flushes_playback playbackBusyState interruptionMsg 7 0 3 9 0
     (by decide)⟩

/-- C7: after `stop()` the reconnect machinery is inert: a hard stop leaves
the stop-requested flag set and the reconnect timer cancelled; with the flag
set, `scheduleReconnect` refuses to schedule, `reconnectLiveSession` refuses
to execute (no transport is opened), and a fired timer callback finds no
armed timer — in general any state with the stop flag set is left unchanged
by both the scheduling and the executing halves of the reconnect policy. -/
theorem stop_halts_reconnect (st st2 : AppState) (n j : Nat)
    (g g2 : MediaGrants) (why : String) (c r : Option String)
    (h2 : st2.stopRequested = true) :
    (hardStopInteractionMode n st).stopRequested = true
    ∧ (hardStopInteractionMode n st).reconnectTimer = none
    ∧ scheduleReconnect why c r j (hardStopInteractionMode n st)
        = hardStopInteractionMode n st
    ∧ reconnectLiveSession g (hardStopInteractionMode n st)
        = hardStopInteractionMode n st
    ∧ fireReconnectTimer g2 (hardStopInteractionMode n st)
        = hardStopInteractionMode n st
    ∧ scheduleReconnect why c r j st2 = st2
    ∧ reconnectLiveSession g st2 = st2 := by
  refine ⟨hardStop_stopRequested n st, hardStop_reconnectTimer n st,
    ?_, ?_, ?_, ?_, ?_⟩
  · exact scheduleReconnect_noop_of_stop why c r j _
      (hardStop_stopRequested n st)
  · exact reconnectLiveSession_noop_of_stop g _ (hardStop_stopRequested n st)
  · exact fireReconnectTimer_noop_of_clear g2 _ (hardStop_reconnectTimer n st)
  · exact scheduleReconnect_noop_of_stop why c r j st2 h2
  · exact reconnectLiveSession_noop_of_stop g st2 h2

/-- Witness for C7: stop is called while a reconnect is scheduled
(status reconnecting), and the policy stays inert afterwards. -/
theorem stop_halts_reconnect_witness :
    stopRequestedState.stopRequested = true
    ∧ ((hardStopInteractionMode 3 reconnectInFlightState).stopRequested = true
      ∧ (hardStopInteractionMode 3 reconnectInFlightState).reconnectTimer
          = none
      ∧ scheduleReconnect "ws-close" none none 10
            (hardStopInteractionMode 3 reconnectInFlightState)
          = hardStopInteractionMode 3 reconnectInFlightState
      ∧ reconnectLiveSession ⟨true, true⟩
            (hardStopInteractionMode 3 reconnectInFlightState)
          = hardStopInteractionMode 3 reconnectInFlightState
      ∧ fireReconnectTimer ⟨false, false⟩
            (hardStopInteractionMode 3 reconnectInFlightState)
          = hardStopInteractionMode 3 reconnectInFlightState
      ∧ scheduleReconnect "ws-close" none none 10 stopRequestedState
          = stopRequestedState
      ∧ reconnectLiveSession ⟨true, true⟩ stopRequestedState
          = stopRequestedState) :=
  ⟨by decide,
   stop_halts_reconnect reconnectInFlightState stopRequestedState 3 10
     ⟨true, true⟩ ⟨false, false⟩ "ws-close" none none (by decide)⟩

theorem reconnectAcquireVision_reconnectFields (g : MediaGrants)
    (st : AppState) :
    (reconnectAcquireVision g st).1.reconnectTimer = st.reconnectTimer
    ∧ (reconnectAcquireVision g st).1.reconnecting = st.reconnecting
    ∧ (reconnectAcquireVision g st).1.reconnectAttempts
        = st.reconnectAttempts := by
  unfold reconnectAcquireVision softFailInteractionMode
  split_ifs <;> exact ⟨rfl, rfl, rfl⟩

theorem reconnectAcquireAudio_reconnectFields (g : MediaGrants)
    (st : AppState) :
    (reconnectAcquireAudio g st).1.reconnectTimer = st.reconnectTimer
    ∧ (reconnectAcquireAudio g st).1.reconnecting = st.reconnecting
    ∧ (reconnectAcquireAudio g st).1.reconnectAttempts
        = st.reconnectAttempts := by
  unfold reconnectAcquireAudio softFailInteractionMode
  split_ifs <;> exact ⟨rfl, rfl, rfl⟩

theorem reconnectLiveSession_reconnectFields (g : MediaGrants)
    (st : AppState) :
    (reconnectLiveSession g st).reconnectTimer = st.reconnectTimer
    ∧ (reconnectLiveSession g st).reconnecting = st.reconnecting
    ∧ (reconnectLiveSession g st).reconnectAttempts = st.reconnectAttempts := by
  unfold reconnectLiveSession
  split
  · exact ⟨rfl, rfl, rfl⟩
  · dsimp only
    split
    · rename_i stv heqV
      have h1 := congrArg Prod.fst heqV
      dsimp only at h1
      rw [← h1]
      exact reconnectAcquireVision_reconnectFields g _
    · rename_i stv heqV
      have h1 := congrArg Prod.fst heqV
      dsimp only at h1
      have hstv : stv.reconnectTimer = st.reconnectTimer
          ∧ stv.reconnecting = st.reconnecting
          ∧ stv.reconnectAttempts = st.reconnectAttempts := by
        rw [← h1]
        exact reconnectAcquireVision_reconnectFields g _
      split
      · rename_i sta heqA
        have h2 := congrArg Prod.fst heqA
        dsimp only at h2
        have hsta : sta.reconnectTimer = stv.reconnectTimer
            ∧ sta.reconnecting = stv.reconnecting
            ∧ sta.reconnectAttempts = stv.reconnectAttempts := by
          rw [← h2]
          exact reconnectAcquireAudio_reconnectFields g stv
        exact ⟨hsta.1.trans hstv.1, hsta.2.1.trans hstv.2.1,
          hsta.2.2.trans hstv.2.2⟩
      · rename_i sta heqA
        have h2 := congrArg Prod.fst heqA
        dsimp only at h2
        have hsta : sta.reconnectTimer = stv.reconnectTimer
            ∧ sta.reconnecting = stv.reconnecting
            ∧ sta.reconnectAttempts = stv.reconnectAttempts := by
          rw [← h2]
          exact reconnectAcquireAudio_reconnectFields g stv
        dsimp only
        split_ifs <;>
          simp only [ensureAudioCapturePipeline] <;>
          split_ifs <;>
          exact ⟨hsta.1.trans hstv.1, hsta.2.1.trans hstv.2.1,
            hsta.2.2.trans hstv.2.2⟩

/-- C8 counterexample: `start()` with the screen-share prompt denied and the
microphone grantable never requests the microphone at all (the audio request
counter does not move and no stream is acquired) — a failure in the video
acquisition does block the audio acquisition, so the claim that a failure in
one acquisition does not block the other is false at this input. -/
theorem video_denial_blocks_audio_acquisition :
    (startInteractionMode ⟨false, true⟩ 99 startReadyState).audioRequests
        = startReadyState.audioRequests
    ∧ (startInteractionMode ⟨false, true⟩ 99 startReadyState).stream = none
    ∧ (startInteractionMode ⟨false, true⟩ 99 startReadyState).videoRequests
        = startReadyState.videoRequests + 1 := by
  decide

/-- C8 (amended): `start()` acquires the screen-capture device first and the
microphone second; a denial on either surfaces a specific error naming that
device and keeps the overlay/session alive (no full state reset); a
microphone denial does not retract the already-granted screen-capture
device; a screen-share denial, however, returns before the microphone is
ever requested. -/
theorem start_device_denial_handling (st : AppState) (g : MediaGrants)
    (n : Nat) (h0 : st.isInteractionMode = false) :
    (g.video = true → g.audio = false →
      (startInteractionMode g n st).visionStream = some true
      ∧ (startInteractionMode g n st).interactionStatus
          = InteractionStatus.error
      ∧ (startInteractionMode g n st).interactionError
          = "Microphone permission denied. Please allow microphone access to use Interaction Mode."
      ∧ (startInteractionMode g n st).isInteractionMode = true
      ∧ (startInteractionMode g n st).audioRequests = st.audioRequests + 1)
    ∧ (g.video = false →
      (startInteractionMode g n st).audioRequests = st.audioRequests
      ∧ (startInteractionMode g n st).stream = st.stream
      ∧ (startInteractionMode g n st).interactionStatus
          = InteractionStatus.error
      ∧ (startInteractionMode g n st).interactionError
          = "Screen share permission denied. Please allow screen sharing to use Interaction Mode."
      ∧ (startInteractionMode g n st).isInteractionMode = true) := by
  obtain ⟨gv, ga⟩ := g
  constructor
  · intro hv ha
    dsimp only at hv ha
    subst hv
    subst ha
    simp [startInteractionMode, h0, createNewSession, softFailInteractionMode]
    all_goals split_ifs <;> simp_all
  · intro hv
    dsimp only at hv
    subst hv
    simp [startInteractionMode, h0, createNewSession, softFailInteractionMode]
    all_goals split_ifs <;> simp_all

/-- Witness for the amended C8: from an idle state, a granted screen share
followed by a denied microphone keeps the screen stream and surfaces the
microphone-specific error; a denied screen share surfaces the screen-share
error without requesting the microphone. -/
theorem start_device_denial_handling_witness :
    startReadyState.isInteractionMode = false
    ∧ (((MediaGrants.mk true false).video = true →
        (MediaGrants.mk true false).audio = false →
        (startInteractionMode ⟨true, false⟩ 99 startReadyState).visionStream
            = some true
        ∧ (startInteractionMode ⟨true, false⟩ 99 startReadyState).interactionStatus
            = InteractionStatus.error
        ∧ (startInteractionMode ⟨true, false⟩ 99 startReadyState).interactionError
            = "Microphone permission denied. Please allow microphone access to use Interaction Mode."
        ∧ (startInteractionMode ⟨true, false⟩ 99 startReadyState).isInteractionMode
            = true
        ∧ (startInteractionMode ⟨true, false⟩ 99 startReadyState).audioRequests
            = startReadyState.audioRequests + 1)
      ∧ ((MediaGrants.mk true false).video = false →
        (startInteractionMode ⟨true, false⟩ 99 startReadyState).audioRequests
            = startReadyState.audioRequests
        ∧ (startInteractionMode ⟨true, false⟩ 99 startReadyState).stream
            = startReadyState.stream
        ∧ (startInteractionMode ⟨true, false⟩ 99 startReadyState).interactionStatus
            = InteractionStatus.error
        ∧ (startInteractionMode ⟨true, false⟩ 99 startReadyState).interactionError
            = "Screen share permission denied. Please allow screen sharing to use Interaction Mode."
        ∧ (startInteractionMode ⟨true, false⟩ 99 startReadyState).isInteractionMode
            = true)) :=
  ⟨by decide,
   start_device_denial_handling startReadyState ⟨true, false⟩ 99 (by decide)⟩

/-- C10: a user-initiated manual retry supersedes any pending policy-driven
reconnect: the retry handler cancels the pending reconnect timer, clears the
in-flight flag, and resets the attempt counter to 0 before starting its own
connection attempt, so a previously scheduled policy reconnect can never
fire after the retry begins (the timer callback finds no armed timer). -/
theorem retry_supersedes_policy_reconnect (st : AppState)
    (g g2 : MediaGrants) :
    (onRetry g st).reconnectTimer = none
    ∧ (onRetry g st).reconnecting = false
    ∧ (onRetry g st).reconnectAttempts = 0
    ∧ fireReconnectTimer g2 (onRetry g st) = onRetry g st := by
  have h := reconnectLiveSession_reconnectFields g
    { st with reconnectAttempts := 0, reconnecting := false,
              reconnectTimer := none }
  refine ⟨?_, ?_, ?_, ?_⟩
  · simpa [onRetry] using h.1
  · simpa [onRetry] using h.2.1
  · simpa [onRetry] using h.2.2
  · refine fireReconnectTimer_noop_of_clear g2 _ ?_
    simpa [onRetry] using h.1
